import Mathlib

/-!
Verification of the Record Store contract of the Patient Record Management
System (`src/hprs.py`), a CSV-backed CRUD application.

The backing CSV file is modelled at the row level: a file is a
`List (List String)` whose first element is the header row and whose
remaining elements are data rows (the `csv` module's reader/writer are
inverse row serializers, so row lists are a faithful abstraction of the
file content).  A file that cannot be read (`StorageError`) is modelled as
`none` in an `Option (List (List String))`.  The contents of the ten GUI
entry widgets are modelled as a function `String → String` from the
input-field key (as registered in `self.input_fields`) to the raw text of
that entry.
-/

namespace HPRS

/-- Character-wise model of Python's `str.lower()` (ASCII case folding,
as performed by `Char.toLower`; the data this program handles is ASCII). -/
def pyLower (s : String) : String := ⟨s.data.map Char.toLower⟩

/-- Model of Python's `str.strip()`: drop whitespace from both ends. -/
def pyStrip (s : String) : String :=
  ⟨((s.data.dropWhile Char.isWhitespace).reverse.dropWhile Char.isWhitespace).reverse⟩

/-- Whether `needle` is a prefix of `hay` (character lists). -/
def isPrefixList : List Char → List Char → Bool
  | [], _ => true
  | _ :: _, [] => false
  | a :: as, b :: bs => a == b && isPrefixList as bs

/-- Whether `needle` occurs as a contiguous substring of `hay`; model of
Python's `needle in hay` on strings. -/
def subList : List Char → List Char → Bool
  | needle, [] => isPrefixList needle []
  | needle, c :: cs => isPrefixList needle (c :: cs) || subList needle cs

/-- Model of Python's `int(s)` for the stripped strings this program feeds
it: an optional sign followed by one or more ASCII digits; anything else
raises `ValueError`, modelled as `none`. -/
def parseDigits (cs : List Char) : Option Nat :=
  if cs.isEmpty then none
  else if cs.all Char.isDigit then
    some (cs.foldl (fun a c => a * 10 + (c.toNat - 48)) 0)
  else none

/-- Python `int()` applied to an already-stripped string (`hprs.py` always
strips before converting). -/
def parsePyInt (s : String) : Option Int :=
  match s.data with
  | '-' :: rest => (parseDigits rest).map (fun n => -(n : Int))
  | '+' :: rest => (parseDigits rest).map (fun n => (n : Int))
  | cs => (parseDigits cs).map (fun n => (n : Int))

/-- The fixed CSV column headers, `self.headers` (hprs.py lines 38-49). -/
def headers : List String :=
  ["Patient ID", "Name", "Age", "Gender", "Contact Number", "Address",
   "Admission Date", "Disease", "Doctor Assigned", "Room Number"]

/-- The keys under which `create_input_section` registers the ten entry
widgets in `self.input_fields` (hprs.py lines 122-133). -/
def inputFieldKeys : List String :=
  ["patient_id", "name", "age", "gender", "contact", "address",
   "admission_date", "disease", "doctor", "room"]

/-- The field key derived from a column header by
`header.lower().replace(" ", "_")` (hprs.py lines 325, 379, 546); the
replaced pattern is the single character `" "`, so the replacement is
character-wise. -/
def toKey (h : String) : String :=
  ⟨(pyLower h).data.map (fun c => if c = ' ' then '_' else c)⟩

/-- First cell of a CSV row (`record[0]`); data rows written by this
program always have ten cells, so the default is never consulted on
well-formed files. -/
def rowId (r : List String) : String := r.getD 0 ""

/-- Embedding of `validate_input` (hprs.py lines 290-310): the required
fields `patient_id`, `name`, `age` must be non-blank after stripping, and
the stripped age must convert by `int()` to a value in `[0, 150]`.
Returns the `(is_valid, message)` pair of the source. -/
def validate_input (inputs : String → String) : Bool × String :=
  if pyStrip (inputs "patient_id") = "" then (false, "Patient Id is required")
  else if pyStrip (inputs "name") = "" then (false, "Name is required")
  else if pyStrip (inputs "age") = "" then (false, "Age is required")
  else
    match parsePyInt (pyStrip (inputs "age")) with
    | none => (false, "Age must be a valid number")
    | some n => if n < 0 ∨ n > 150 then (false, "Age must be between 0 and 150")
                else (true, "Valid")

/-- The row serialization loop shared verbatim by `add_record`
(hprs.py lines 322-330) and `update_record` (lines 377-384): for each
column header, if the derived key is registered in `input_fields` take
the stripped entry text, otherwise the empty string. -/
def buildRecord (inputs : String → String) : List String :=
  headers.map (fun h =>
    if inputFieldKeys.contains (toKey h) then pyStrip (inputs (toKey h)) else "")

/-- Embedding of `check_duplicate_id` (hprs.py lines 551-564): scan the
data rows for one whose first cell equals `patient_id`; any exception
while reading (modelled by `none`) is swallowed and yields `false`. -/
def check_duplicate_id (file : Option (List (List String))) (patient_id : String) : Bool :=
  match file with
  | none => false
  | some rows => (rows.drop 1).any (fun r => !r.isEmpty && rowId r == patient_id)

/-- Embedding of the read path of `load_records` (hprs.py lines 464-491):
the rows shown in the table.  The header row is skipped, rows that are
entirely empty are filtered out (`if any(record)`), and a read failure
(`none`) leaves the cleared table empty. -/
def load_records (file : Option (List (List String))) : List (List String) :=
  match file with
  | none => []
  | some rows => (rows.drop 1).filter (fun r => r.any (fun s => s != ""))

/-- Embedding of `initialize_csv` (hprs.py lines 60-67): create the file
containing only the header row when absent, otherwise leave it alone. -/
def initialize_csv (file : Option (List (List String))) : Option (List (List String)) :=
  match file with
  | none => some [headers]
  | some rows => some rows

/-- Outcome of `add_record`: a validation failure dialog, a duplicate-id
error dialog, or success with the new file content. -/
inductive AddOutcome where
  | validationError (msg : String)
  | duplicateKeyError
  | ok (newFile : List (List String))
  deriving DecidableEq, Repr

/-- Embedding of `add_record` (hprs.py lines 312-354): validate, build the
row, reject a duplicate `new_record[0]`, otherwise append the row to the
file. -/
def add_record (file : List (List String)) (inputs : String → String) : AddOutcome :=
  let v := validate_input inputs
  if v.1 = false then .validationError v.2
  else
    let newRecord := buildRecord inputs
    if check_duplicate_id (some file) (rowId newRecord) then .duplicateKeyError
    else .ok (file ++ [newRecord])

/-- The file content after `add_record` returns: unchanged unless the
append succeeded. -/
def fileAfterAdd (file : List (List String)) (inputs : String → String) : List (List String) :=
  match add_record file inputs with
  | .ok f => f
  | _ => file

/-- The replacement loop of `update_record` (hprs.py lines 392-398):
replace the first row whose first cell equals `oldId` and stop; `none`
when no row matches. -/
def replaceFirst (rows : List (List String)) (oldId : String) (newRec : List String) :
    Option (List (List String)) :=
  match rows with
  | [] => none
  | r :: rest =>
    if rowId r = oldId then some (newRec :: rest)
    else (replaceFirst rest oldId newRec).map (fun rs => r :: rs)

/-- Outcome of `update_record`: a validation failure dialog, the
"Record not found in database" dialog, or success with the rewritten
file. -/
inductive UpdateOutcome where
  | validationError (msg : String)
  | notFound
  | ok (newFile : List (List String))
  deriving DecidableEq, Repr

/-- Embedding of `update_record` (hprs.py lines 356-411) given the
patient id of the selected table row (`old_values[0]`): validate, build
the updated row, replace the first data row matching the old id and
rewrite the file, or report not-found without writing. -/
def update_record (file : List (List String)) (oldId : String)
    (inputs : String → String) : UpdateOutcome :=
  let v := validate_input inputs
  if v.1 = false then .validationError v.2
  else
    let updatedRecord := buildRecord inputs
    match replaceFirst (file.drop 1) oldId updatedRecord with
    | some newData => .ok (file.take 1 ++ newData)
    | none => .notFound

/-- The file content after `update_record` returns: unchanged unless the
rewrite happened. -/
def fileAfterUpdate (file : List (List String)) (oldId : String)
    (inputs : String → String) : List (List String) :=
  match update_record file oldId inputs with
  | .ok f => f
  | _ => file

/-- Embedding of `delete_record` (hprs.py lines 413-451) given the
patient id of the selected table row: keep the header, drop every data
row whose first cell equals `patient_id`, rewrite the file.  No
not-found error exists on this path. -/
def delete_record (file : List (List String)) (patient_id : String) : List (List String) :=
  file.take 1 ++ (file.drop 1).filter (fun r => !(rowId r == patient_id))

/-- Outcome of `search_records`: either rows shown in the table, or the
"Search failed" error dialog (the `except` branch, reached when
`headers.index(search_field)` raises or the file cannot be read) with the
cleared table left empty. -/
inductive SearchOutcome where
  | shown (rows : List (List String))
  | error
  deriving DecidableEq, Repr

/-- Embedding of `search_records` (hprs.py lines 493-529): the search term
is stripped and lowercased; an empty term falls back to `load_records`;
otherwise the column index of the field is looked up in the file's header
row (`ValueError` → error dialog) and the data rows whose cell in that
column contains the term case-insensitively are shown. -/
def search_records (file : Option (List (List String))) (field term : String) : SearchOutcome :=
  let searchTerm := pyLower (pyStrip term)
  if searchTerm = "" then .shown (load_records file)
  else
    match file with
    | none => .error
    | some [] => .error
    | some (hdr :: dataRows) =>
      if hdr.contains field then
        let colIndex := hdr.indexOf field
        .shown (dataRows.filter (fun r =>
          decide (colIndex < r.length) && subList searchTerm.data (pyLower (r.getD colIndex "")).data))
      else .error

/-- The rows left in the table by a search outcome (the table is cleared
before the attempt, so the error dialog leaves it empty). -/
def displayedRows : SearchOutcome → List (List String)
  | .shown rows => rows
  | .error => []

/-- Specification-side predicate: the value `hay` contains `needle` as a
case-insensitive substring. -/
def containsCI (hay needle : String) : Bool :=
  subList (pyLower needle).data (pyLower hay).data

/-- Specification-side predicate for C4: the string is an integer in
`[0, 150]` in the sense of Python's `int()`. -/
def ageValidB (s : String) : Bool :=
  match parsePyInt s with
  | some n => decide (0 ≤ n ∧ n ≤ 150)
  | none => false

/-! ### Helper lemmas -/

lemma toKey_patient_id : toKey "Patient ID" = "patient_id" := by decide

lemma toKey_name : toKey "Name" = "name" := by decide

lemma toKey_age : toKey "Age" = "age" := by decide

lemma toKey_gender : toKey "Gender" = "gender" := by decide

lemma toKey_contact_number : toKey "Contact Number" = "contact_number" := by decide

lemma toKey_address : toKey "Address" = "address" := by decide

lemma toKey_admission_date : toKey "Admission Date" = "admission_date" := by decide

lemma toKey_disease : toKey "Disease" = "disease" := by decide

lemma toKey_doctor_assigned : toKey "Doctor Assigned" = "doctor_assigned" := by decide

lemma toKey_room_number : toKey "Room Number" = "room_number" := by decide

lemma mem_patient_id : "patient_id" ∈ inputFieldKeys := by decide

lemma mem_name : "name" ∈ inputFieldKeys := by decide

lemma mem_age : "age" ∈ inputFieldKeys := by decide

lemma mem_gender : "gender" ∈ inputFieldKeys := by decide

lemma mem_contact_number : "contact_number" ∉ inputFieldKeys := by decide

lemma mem_address : "address" ∈ inputFieldKeys := by decide

lemma mem_admission_date : "admission_date" ∈ inputFieldKeys := by decide

lemma mem_disease : "disease" ∈ inputFieldKeys := by decide

lemma mem_doctor_assigned : "doctor_assigned" ∉ inputFieldKeys := by decide

lemma mem_room_number : "room_number" ∉ inputFieldKeys := by decide

/-- The serialized row, written out column by column: the seven columns
whose derived key is registered take the stripped entry text; the three
columns whose derived key is not registered (`contact_number`,
`doctor_assigned`, `room_number`) are written as the empty string. -/
lemma buildRecord_eq (inputs : String → String) :
    buildRecord inputs =
      [pyStrip (inputs "patient_id"), pyStrip (inputs "name"), pyStrip (inputs "age"),
       pyStrip (inputs "gender"), "", pyStrip (inputs "address"),
       pyStrip (inputs "admission_date"), pyStrip (inputs "disease"), "", ""] := by
  simp [buildRecord, headers, toKey_patient_id, toKey_name, toKey_age, toKey_gender,
    toKey_contact_number, toKey_address, toKey_admission_date, toKey_disease,
    toKey_doctor_assigned, toKey_room_number, mem_patient_id, mem_name, mem_age,
    mem_gender, mem_contact_number, mem_address, mem_admission_date, mem_disease,
    mem_doctor_assigned, mem_room_number]

lemma valid_pid (inputs : String → String) (h : (validate_input inputs).1 = true) :
    pyStrip (inputs "patient_id") ≠ "" := by
  intro hc
  simp [validate_input, hc] at h

lemma validate_fail_iff (inputs : String → String) :
    (validate_input inputs).1 = false ↔
      (pyStrip (inputs "patient_id") = "" ∨ pyStrip (inputs "name") = "" ∨
       pyStrip (inputs "age") = "" ∨ ageValidB (pyStrip (inputs "age")) = false) := by
  unfold validate_input ageValidB
  split_ifs with h1 h2 h3
  · simp [h1]
  · simp [h2]
  · simp [h3]
  · rcases hp : parsePyInt (pyStrip (inputs "age")) with _ | n
    · simp [h1, h2, h3, hp]
    · simp only [hp]
      split_ifs with h4
      · simp [h1, h2, h3]
        omega
      · simp [h1, h2, h3]
        omega

lemma replaceFirst_append (pre post : List (List String)) (tgt newRec : List String)
    (oldId : String) (hpre : ∀ r ∈ pre, rowId r ≠ oldId) (htgt : rowId tgt = oldId) :
    replaceFirst (pre ++ tgt :: post) oldId newRec = some (pre ++ newRec :: post) := by
  induction pre with
  | nil => simp [replaceFirst, htgt]
  | cons r rs ih =>
    have hr : ¬(rowId r = oldId) := hpre r (List.mem_cons_self r rs)
    have ih' := ih (fun x hx => hpre x (List.mem_cons_of_mem r hx))
    simp [replaceFirst, hr, ih']

lemma replaceFirst_none (rows : List (List String)) (oldId : String) (newRec : List String)
    (h : ∀ r ∈ rows, rowId r ≠ oldId) : replaceFirst rows oldId newRec = none := by
  induction rows with
  | nil => rfl
  | cons r rs ih =>
    have hr : ¬(rowId r = oldId) := h r (List.mem_cons_self r rs)
    have ih' := ih (fun x hx => h x (List.mem_cons_of_mem r hx))
    simp [replaceFirst, hr, ih']

lemma mem_of_replaceFirst (rows : List (List String)) (oldId : String)
    (newRec : List String) (rows' : List (List String))
    (h : replaceFirst rows oldId newRec = some rows') : newRec ∈ rows' := by
  induction rows generalizing rows' with
  | nil => simp [replaceFirst] at h
  | cons r rs ih =>
    by_cases hr : rowId r = oldId
    · simp [replaceFirst, hr] at h
      rw [← h]
      exact List.mem_cons_self _ _
    · simp [replaceFirst, hr] at h
      rcases hopt : replaceFirst rs oldId newRec with _ | rs'
      · rw [hopt] at h
        simp at h
      · rw [hopt] at h
        simp at h
        rw [← h]
        exact List.mem_cons_of_mem r (ih rs' hopt)

lemma length_filter_add {α : Type} (l : List α) (p : α → Bool) :
    (l.filter p).length + (l.filter (fun a => !(p a))).length = l.length := by
  induction l with
  | nil => rfl
  | cons a l ih => cases hpa : p a <;> simp [List.filter_cons, hpa] <;> omega

lemma length_filter_not {α : Type} (l : List α) (p : α → Bool) :
    (l.filter (fun a => !(p a))).length = l.length - (l.filter p).length := by
  have h := length_filter_add l p
  have h2 := List.length_filter_le p l
  omega

/-! ### Concrete inputs used by counterexamples and witnesses -/

/-- Entry contents for the C1 round-trip: valid required fields, a
non-empty contact number and doctor, and a blank admission date. -/
def c1Inputs : String → String := fun k =>
  if k == "patient_id" then "P001" else if k == "name" then "Alice"
  else if k == "age" then "30" else if k == "contact" then "555-1234"
  else if k == "doctor" then "Dr. Lee" else ""

/-- A store holding the single record `P001`. -/
def dupStore : List (List String) :=
  [headers, ["P001", "Alice", "30", "", "", "", "", "", "", ""]]

/-- Entry contents whose patient id duplicates `P001` but whose name is
blank. -/
def c3BlankNameInputs : String → String := fun k =>
  if k == "patient_id" then "P001" else if k == "age" then "30" else ""

/-- Entry contents that pass validation and duplicate `P001`. -/
def c3ValidInputs : String → String := fun k =>
  if k == "patient_id" then "P001" else if k == "name" then "Eve"
  else if k == "age" then "40" else ""

/-- Entry contents with the given age and valid other required fields. -/
def mkAgeInputs (age : String) : String → String := fun k =>
  if k == "patient_id" then "P9" else if k == "name" then "Bob"
  else if k == "age" then age else ""

/-- Entry contents for C10 with non-empty contact, doctor and room. -/
def c10Inputs : String → String := fun k =>
  if k == "patient_id" then "P2" else if k == "name" then "Cara"
  else if k == "age" then "25" else if k == "contact" then "555-0000"
  else if k == "doctor" then "Dr. Wu" else if k == "room" then "101" else ""

/-- A pre-existing data row with patient id `P1`. -/
def c10OldRow : List String := ["P1", "Old", "50", "", "", "", "", "", "", ""]

/-- First data row of the C2 store. -/
def c2RowA : List String := ["A1", "Ann", "20", "", "", "", "", "", "", ""]

/-- The C2 row selected for update, with patient id `P001`. -/
def c2RowB : List String := ["P001", "Ben", "30", "", "", "", "", "", "", ""]

/-- Last data row of the C2 store. -/
def c2RowC : List String := ["C3", "Cal", "40", "", "", "", "", "", "", ""]

/-- Entry contents for the C2 update, carrying the different id `P777`. -/
def c2Inputs : String → String := fun k =>
  if k == "patient_id" then "P777" else if k == "name" then "New"
  else if k == "age" then "33" else ""

/-- Data rows of the C5 store: one `P001` row and one other row. -/
def c5Rows : List (List String) :=
  [["P001", "Del", "30", "", "", "", "", "", "", ""],
   ["K2", "Keep", "40", "", "", "", "", "", "", ""]]

/-- The C5 row that survives the delete. -/
def c5Keep : List String := ["K2", "Keep", "40", "", "", "", "", "", "", ""]

/-- Data rows of the C6 store: a single record named `John SMITH`. -/
def smithRows : List (List String) :=
  [["P1", "John SMITH", "30", "", "", "", "", "", "", ""]]

/-- Data rows of the C7 store: a single record whose id `P0011` contains
`P001` as a proper prefix but does not equal it. -/
def c7Rows : List (List String) :=
  [["P0011", "Pat", "28", "", "", "", "", "", "", ""]]

/-- Valid entry contents carrying the id `P001` for the C7 update. -/
def c7Inputs : String → String := fun k =>
  if k == "patient_id" then "P001" else if k == "name" then "Nia"
  else if k == "age" then "28" else ""

/-- The branch of `search_records` taken on a readable, non-empty file
when the stripped search term is non-empty. -/
lemma search_records_some_cons (hdr : List String) (dataRows : List (List String))
    (field term : String) (h : ¬(pyLower (pyStrip term) = "")) :
    search_records (some (hdr :: dataRows)) field term =
      if hdr.contains field then
        .shown (dataRows.filter (fun r =>
          decide (hdr.indexOf field < r.length) &&
          subList (pyLower (pyStrip term)).data (pyLower (r.getD (hdr.indexOf field) "")).data))
      else .error := by
  rw [search_records, if_neg h]

/-! ### Claims -/

/-- C1, counterexample: inserting a validated, fresh record and listing
does NOT return a record equal field-for-field to the input.  With
contact `"555-1234"` and doctor `"Dr. Lee"` entered, the single listed
record has empty Contact Number and Doctor Assigned columns; and with a
blank admission date entered, the stored Admission Date is the empty
string, not the current date. -/
theorem C1_counterexample :
    add_record [headers] c1Inputs = .ok [headers, buildRecord c1Inputs] ∧
    load_records (some [headers, buildRecord c1Inputs]) = [buildRecord c1Inputs] ∧
    c1Inputs "contact" = "555-1234" ∧ (buildRecord c1Inputs).getD 4 "" = "" ∧
    c1Inputs "doctor" = "Dr. Lee" ∧ (buildRecord c1Inputs).getD 8 "" = "" ∧
    c1Inputs "admission_date" = "" ∧ (buildRecord c1Inputs).getD 6 "" = "" := by
  decide

/-- C1, amended: for every input whose required fields pass validation,
inserting into a freshly initialized store and listing yields exactly one
record; its Patient ID, Name, Age, Gender, Address, Admission Date and
Disease columns hold the stripped entry texts, while Contact Number,
Doctor Assigned and Room Number are stored empty; the Admission Date
column holds exactly the admission_date entry text (the current-date
default exists only as a UI pre-fill of that entry widget, not in the
store). -/
theorem C1_round_trip (inputs : String → String)
    (hval : (validate_input inputs).1 = true) :
    add_record [headers] inputs = .ok [headers, buildRecord inputs] ∧
    load_records (some [headers, buildRecord inputs]) = [buildRecord inputs] ∧
    buildRecord inputs =
      [pyStrip (inputs "patient_id"), pyStrip (inputs "name"), pyStrip (inputs "age"),
       pyStrip (inputs "gender"), "", pyStrip (inputs "address"),
       pyStrip (inputs "admission_date"), pyStrip (inputs "disease"), "", ""] := by
  have hpid := valid_pid inputs hval
  refine ⟨?_, ?_, buildRecord_eq inputs⟩
  · simp [add_record, hval, check_duplicate_id]
  · rw [load_records]
    rw [buildRecord_eq]
    simp [List.filter_cons, hpid]

/-- C1, witness: the amended round-trip at the concrete input
`c1Inputs`. -/
theorem C1_round_trip_witness :
    add_record [headers] c1Inputs = .ok [headers, buildRecord c1Inputs] ∧
    load_records (some [headers, buildRecord c1Inputs]) = [buildRecord c1Inputs] ∧
    buildRecord c1Inputs =
      [pyStrip (c1Inputs "patient_id"), pyStrip (c1Inputs "name"), pyStrip (c1Inputs "age"),
       pyStrip (c1Inputs "gender"), "", pyStrip (c1Inputs "address"),
       pyStrip (c1Inputs "admission_date"), pyStrip (c1Inputs "disease"), "", ""] :=
  C1_round_trip c1Inputs (by decide)

/-- C3, counterexample: a record whose patient id `P001` already exists
in the store but whose name is blank is rejected by validation first, so
the insert fails with the validation dialog, not the duplicate-key
dialog. -/
theorem C3_counterexample :
    check_duplicate_id (some dupStore) (pyStrip (c3BlankNameInputs "patient_id")) = true ∧
    add_record dupStore c3BlankNameInputs = .validationError "Name is required" ∧
    add_record dupStore c3BlankNameInputs ≠ .duplicateKeyError := by
  decide

/-- C3, amended: for every store state and every record that passes field
validation and whose patient id already exists in the store, insert fails
with the duplicate-key error and leaves the backing file unchanged. -/
theorem C3_duplicate_insert (file : List (List String)) (inputs : String → String)
    (hval : (validate_input inputs).1 = true)
    (hdup : check_duplicate_id (some file) (rowId (buildRecord inputs)) = true) :
    add_record file inputs = .duplicateKeyError ∧ fileAfterAdd file inputs = file := by
  have h1 : add_record file inputs = .duplicateKeyError := by
    simp [add_record, hval, hdup]
  exact ⟨h1, by simp [fileAfterAdd, h1]⟩

/-- C3, witness: the amended duplicate-insert behaviour at the concrete
store `dupStore` and valid duplicate input `c3ValidInputs`. -/
theorem C3_duplicate_insert_witness :
    add_record dupStore c3ValidInputs = .duplicateKeyError ∧
    fileAfterAdd dupStore c3ValidInputs = dupStore :=
  C3_duplicate_insert dupStore c3ValidInputs (by decide) (by decide)

/-- C4: insert fails with a validation error exactly when one of the
required fields `patient_id`, `name`, `age` is blank after stripping or
the age is not an integer in `[0, 150]`; in particular age `"151"` and
`"-1"` fail with the range message, `"abc"` fails with the number
message, and `"150"` passes validation and is inserted. -/
theorem C4_validation (file : List (List String)) (inputs : String → String) :
    ((∃ msg, add_record file inputs = .validationError msg) ↔
      (pyStrip (inputs "patient_id") = "" ∨ pyStrip (inputs "name") = "" ∨
       pyStrip (inputs "age") = "" ∨ ageValidB (pyStrip (inputs "age")) = false)) ∧
    add_record [headers] (mkAgeInputs "151") = .validationError "Age must be between 0 and 150" ∧
    add_record [headers] (mkAgeInputs "150") =
      .ok [headers, ["P9", "Bob", "150", "", "", "", "", "", "", ""]] ∧
    add_record [headers] (mkAgeInputs "-1") = .validationError "Age must be between 0 and 150" ∧
    add_record [headers] (mkAgeInputs "abc") = .validationError "Age must be a valid number" := by
  refine ⟨?_, by decide, by decide, by decide, by decide⟩
  by_cases hb : (validate_input inputs).1 = false
  · constructor
    · intro _
      exact (validate_fail_iff inputs).mp hb
    · intro _
      exact ⟨(validate_input inputs).2, by simp [add_record, hb]⟩
  · have hb' : (validate_input inputs).1 = true := by
      cases h2 : (validate_input inputs).1
      · exact absurd h2 hb
      · rfl
    constructor
    · rintro ⟨msg, hmsg⟩
      by_cases hd : check_duplicate_id (some file) (rowId (buildRecord inputs)) = true
      · simp [add_record, hb', hd] at hmsg
      · simp [add_record, hb', hd] at hmsg
    · intro hc
      exact absurd ((validate_fail_iff inputs).mpr hc) (by simp [hb'])

/-- C4, witness: the validation characterization applied at age `"151"`
produces a validation error. -/
theorem C4_validation_witness :
    ∃ msg, add_record [headers] (mkAgeInputs "151") = AddOutcome.validationError msg :=
  ((C4_validation [headers] (mkAgeInputs "151")).1).mpr (by decide)

/-- C8: `initialize_csv` creates the file containing only the header row
when the file is absent, leaves a present file untouched without error,
is idempotent, and listing a freshly initialized store yields no
records. -/
theorem C8_initialize_idempotent :
    initialize_csv none = some [headers] ∧
    (∀ rows, initialize_csv (some rows) = some rows) ∧
    (∀ file, initialize_csv (initialize_csv file) = initialize_csv file) ∧
    load_records (initialize_csv none) = [] := by
  refine ⟨rfl, fun rows => rfl, fun file => ?_, rfl⟩
  cases file <;> rfl

/-- C9: when the backing file cannot be read, the list path shows no
records, the search path shows no records for every field and term, and
the duplicate-id existence check answers `false` for every id. -/
theorem C9_storage_error_graceful :
    load_records none = [] ∧
    (∀ field term, displayedRows (search_records none field term) = []) ∧
    (∀ patient_id, check_duplicate_id none patient_id = false) := by
  refine ⟨rfl, fun field term => ?_, fun patient_id => rfl⟩
  by_cases h : pyLower (pyStrip term) = "" <;>
    simp [search_records, h, displayedRows, load_records]

/-- C10: the row serialization shared by insert and update writes the
Contact Number (column 4), Doctor Assigned (column 8) and Room Number
(column 9) cells as the empty string for every input, because the keys
derived from those headers (`contact_number`, `doctor_assigned`,
`room_number`) are not registered input-field keys; a successful insert
appends exactly this serialized row and a successful update writes it
into the file. -/
theorem C10_blanked_columns : ∀ inputs : String → String,
    (buildRecord inputs).getD 4 "" = "" ∧
    (buildRecord inputs).getD 8 "" = "" ∧
    (buildRecord inputs).getD 9 "" = "" ∧
    (toKey "Contact Number" = "contact_number" ∧ "contact_number" ∉ inputFieldKeys) ∧
    (toKey "Doctor Assigned" = "doctor_assigned" ∧ "doctor_assigned" ∉ inputFieldKeys) ∧
    (toKey "Room Number" = "room_number" ∧ "room_number" ∉ inputFieldKeys) ∧
    (∀ file newFile, add_record file inputs = .ok newFile →
      newFile = file ++ [buildRecord inputs]) ∧
    (∀ file oldId newFile, update_record file oldId inputs = .ok newFile →
      buildRecord inputs ∈ newFile) := by
  intro inputs
  refine ⟨?_, ?_, ?_, ⟨toKey_contact_number, mem_contact_number⟩,
    ⟨toKey_doctor_assigned, mem_doctor_assigned⟩,
    ⟨toKey_room_number, mem_room_number⟩, ?_, ?_⟩
  · rw [buildRecord_eq]
    rfl
  · rw [buildRecord_eq]
    rfl
  · rw [buildRecord_eq]
    rfl
  · intro file newFile h
    by_cases hb : (validate_input inputs).1 = false
    · simp [add_record, hb] at h
    · have hb' : (validate_input inputs).1 = true := by
        cases h2 : (validate_input inputs).1
        · exact absurd h2 hb
        · rfl
      by_cases hd : check_duplicate_id (some file) (rowId (buildRecord inputs)) = true
      · simp [add_record, hb', hd] at h
      · simp [add_record, hb', hd] at h
        exact h.symm
  · intro file oldId newFile h
    by_cases hb : (validate_input inputs).1 = false
    · simp [update_record, hb] at h
    · have hb' : (validate_input inputs).1 = true := by
        cases h2 : (validate_input inputs).1
        · exact absurd h2 hb
        · rfl
      rcases hopt : replaceFirst file.tail oldId (buildRecord inputs) with _ | newData
      · simp [update_record, hb', hopt] at h
      · simp [update_record, hb', hopt] at h
        rw [← h]
        exact List.mem_append_right _ (mem_of_replaceFirst _ _ _ _ hopt)

/-- C2: when the store contains a row whose patient id equals the old
selected id, update (with validated new values, which may carry a
different id) replaces the first such row with the serialized new record
and rewrites the file; the header and every other row are unchanged. -/
theorem C2_update_frame (hdr : List String) (pre post : List (List String))
    (tgt : List String) (oldId : String) (inputs : String → String)
    (hval : (validate_input inputs).1 = true)
    (hpre : ∀ r ∈ pre, rowId r ≠ oldId) (htgt : rowId tgt = oldId) :
    update_record (hdr :: (pre ++ tgt :: post)) oldId inputs =
      .ok (hdr :: (pre ++ buildRecord inputs :: post)) ∧
    fileAfterUpdate (hdr :: (pre ++ tgt :: post)) oldId inputs =
      hdr :: (pre ++ buildRecord inputs :: post) := by
  have hrep := replaceFirst_append pre post tgt (buildRecord inputs) oldId hpre htgt
  have h1 : update_record (hdr :: (pre ++ tgt :: post)) oldId inputs =
      .ok (hdr :: (pre ++ buildRecord inputs :: post)) := by
    simp [update_record, hval, hrep]
  exact ⟨h1, by simp [fileAfterUpdate, h1]⟩

/-- C2, witness: updating `P001` in a three-row store through entries
that carry the different id `P777` replaces exactly the middle row. -/
theorem C2_update_frame_witness :
    update_record (headers :: ([c2RowA] ++ c2RowB :: [c2RowC])) "P001" c2Inputs =
      .ok (headers :: ([c2RowA] ++ buildRecord c2Inputs :: [c2RowC])) ∧
    fileAfterUpdate (headers :: ([c2RowA] ++ c2RowB :: [c2RowC])) "P001" c2Inputs =
      headers :: ([c2RowA] ++ buildRecord c2Inputs :: [c2RowC]) :=
  C2_update_frame headers [c2RowA] [c2RowC] c2RowB "P001" c2Inputs (by decide)
    (by decide) (by decide)

/-- C5: delete removes exactly the data rows whose patient id equals the
given id: the rewritten file is the header plus the non-matching rows,
the listing afterwards has no row with that id, equals the prior listing
with the matching rows removed, its length drops by the number of
matching listed rows, and a delete that matches nothing rewrites the
file unchanged without raising any error. -/
theorem C5_delete (hdr : List String) (dataRows : List (List String)) (patient_id : String) :
    delete_record (hdr :: dataRows) patient_id =
      hdr :: dataRows.filter (fun r => !(rowId r == patient_id)) ∧
    (∀ r ∈ load_records (some (delete_record (hdr :: dataRows) patient_id)),
      rowId r ≠ patient_id) ∧
    load_records (some (delete_record (hdr :: dataRows) patient_id)) =
      (load_records (some (hdr :: dataRows))).filter (fun r => !(rowId r == patient_id)) ∧
    (load_records (some (delete_record (hdr :: dataRows) patient_id))).length =
      (load_records (some (hdr :: dataRows))).length -
        ((load_records (some (hdr :: dataRows))).filter
          (fun r => rowId r == patient_id)).length ∧
    ((∀ r ∈ dataRows, rowId r ≠ patient_id) →
      delete_record (hdr :: dataRows) patient_id = hdr :: dataRows) := by
  have hdel : delete_record (hdr :: dataRows) patient_id =
      hdr :: dataRows.filter (fun r => !(rowId r == patient_id)) := rfl
  have hload : ∀ rows : List (List String),
      load_records (some (hdr :: rows)) = rows.filter (fun r => r.any (fun s => s != "")) :=
    fun rows => rfl
  have h3 : load_records (some (delete_record (hdr :: dataRows) patient_id)) =
      (load_records (some (hdr :: dataRows))).filter (fun r => !(rowId r == patient_id)) := by
    rw [hdel, hload, hload, List.filter_filter, List.filter_filter]
    exact List.filter_congr (fun r _ => Bool.and_comm _ _)
  refine ⟨hdel, ?_, h3, ?_, ?_⟩
  · intro r hr heq
    rw [h3] at hr
    have hcond := List.of_mem_filter hr
    rw [heq] at hcond
    simp at hcond
  · rw [h3]
    exact length_filter_not _ _
  · intro h
    rw [hdel]
    congr 1
    exact List.filter_eq_self.mpr (fun r hr => by
      rw [beq_eq_false_iff_ne.mpr (h r hr)]
      rfl)

/-- C5, witness: deleting `P001` from a two-row store keeps exactly the
other row, and deleting it again from the remaining store is a no-op. -/
theorem C5_delete_witness :
    (∀ r ∈ load_records (some (delete_record (headers :: c5Rows) "P001")),
      rowId r ≠ "P001") ∧
    delete_record (headers :: [c5Keep]) "P001" = headers :: [c5Keep] :=
  ⟨(C5_delete headers c5Rows "P001").2.1,
   (C5_delete headers [c5Keep] "P001").2.2.2.2 (by decide)⟩

/-- C6: for a non-empty stripped term and a well-formed store, search over
a declared column returns in file order exactly the rows whose cell in
that column contains the term as a case-insensitive substring, and search
over an undeclared column fails with the error dialog. -/
theorem C6_search (dataRows : List (List String)) (field term : String)
    (hwf : ∀ r ∈ dataRows, r.length = 10)
    (ht : pyStrip term = term) (hne : pyLower term ≠ "") :
    (field ∈ headers →
      search_records (some (headers :: dataRows)) field term =
        .shown (dataRows.filter
          (fun r => containsCI (r.getD (headers.indexOf field) "") term))) ∧
    (field ∉ headers →
      search_records (some (headers :: dataRows)) field term = .error) := by
  have hstrip : ¬(pyLower (pyStrip term) = "") := by rw [ht]; exact hne
  constructor
  · intro hmem
    have hcont : headers.contains field = true := List.elem_iff.mpr hmem
    have hidx : headers.indexOf field < 10 := List.indexOf_lt_length.mpr hmem
    rw [search_records_some_cons headers dataRows field term hstrip, if_pos hcont]
    congr 1
    refine List.filter_congr (fun r hr => ?_)
    have hlen : headers.indexOf field < r.length := by
      rw [hwf r hr]
      exact hidx
    simp [hlen, containsCI, ht]
  · intro hnmem
    have hcont : headers.contains field = false := by
      cases hc : headers.contains field
      · rfl
      · exact absurd (List.elem_iff.mp hc) hnmem
    rw [search_records_some_cons headers dataRows field term hstrip]
    rw [hcont]
    simp

/-- C6, witness: searching Name for `"smith"` finds the stored
`"John SMITH"` row, and searching an undeclared column errors. -/
theorem C6_search_witness :
    search_records (some (headers :: smithRows)) "Name" "smith" =
      .shown (smithRows.filter
        (fun r => containsCI (r.getD (headers.indexOf "Name") "") "smith")) ∧
    smithRows.filter (fun r => containsCI (r.getD (headers.indexOf "Name") "") "smith") =
      smithRows ∧
    search_records (some (headers :: smithRows)) "Bogus" "smith" = .error :=
  ⟨(C6_search smithRows "Name" "smith" (by decide) (by decide) (by decide)).1 (by decide),
   by decide,
   (C6_search smithRows "Bogus" "smith" (by decide) (by decide) (by decide)).2 (by decide)⟩

/-- C7: when no data row's patient id string-equals the id being updated
(even if some row's id contains it as a proper substring), update reports
the not-found error and the backing file is not rewritten. -/
theorem C7_update_not_found (hdr : List String) (dataRows : List (List String))
    (oldId : String) (inputs : String → String)
    (hval : (validate_input inputs).1 = true)
    (hnone : ∀ r ∈ dataRows, rowId r ≠ oldId) :
    update_record (hdr :: dataRows) oldId inputs = .notFound ∧
    fileAfterUpdate (hdr :: dataRows) oldId inputs = hdr :: dataRows := by
  have hrep := replaceFirst_none dataRows oldId (buildRecord inputs) hnone
  have h1 : update_record (hdr :: dataRows) oldId inputs = .notFound := by
    simp [update_record, hval, hrep]
  exact ⟨h1, by simp [fileAfterUpdate, h1]⟩

/-- C7, witness: updating `P001` in a store whose only row has the id
`P0011` (which contains `P001` as a proper prefix, so no exact match
occurs) reports not-found and leaves the file unchanged. -/
theorem C7_update_not_found_witness :
    update_record (headers :: c7Rows) "P001" c7Inputs = .notFound ∧
    fileAfterUpdate (headers :: c7Rows) "P001" c7Inputs = headers :: c7Rows :=
  C7_update_not_found headers c7Rows "P001" c7Inputs (by decide) (by decide)

/-- C10, witness: the blanked columns at the concrete input `c10Inputs`,
whose contact, doctor and room entries are non-empty, together with the
insert and update rows it produces. -/
theorem C10_blanked_columns_witness :
    (buildRecord c10Inputs).getD 4 "" = "" ∧
    (buildRecord c10Inputs).getD 8 "" = "" ∧
    (buildRecord c10Inputs).getD 9 "" = "" ∧
    c10Inputs "contact" = "555-0000" ∧ c10Inputs "doctor" = "Dr. Wu" ∧
    c10Inputs "room" = "101" ∧
    [headers, c10OldRow, buildRecord c10Inputs] = [headers, c10OldRow] ++ [buildRecord c10Inputs] ∧
    buildRecord c10Inputs ∈ [headers, buildRecord c10Inputs] := by
  obtain ⟨h4, h8, h9, -, -, -, hadd, hupd⟩ := C10_blanked_columns c10Inputs
  exact ⟨h4, h8, h9, by decide, by decide, by decide,
    hadd [headers, c10OldRow] _ (by decide), hupd [headers, c10OldRow] "P1" _ (by decide)⟩

end HPRS
